import Mathlib

/-!
# Verification of the Hue HTTPS request dispatch subsystem

Shallow embedding of `components/hue_https` (files `hue_https_instance.c`,
`hue_https.c`, headers `hue_https.h`, `hue_https_private.h`) of the
esp32-hue-proximity-control firmware, together with theorems settling the
frozen claims about the natural-language specification of that subsystem.

C strings are modelled as `List Char` (no interior NUL bytes); nullable
`char*` fields as `Option (List Char)`.  ESP-IDF error codes are modelled by
the inductive `EspErr`.  Event-group bit masks are `Nat` with Lean's bitwise
operations.  Fallible environment primitives (malloc, FreeRTOS object
creation, the HTTP transport) are supplied by explicit oracle structures, and
side effects relevant to the claims (transport calls, backoff sleeps, deletes
and frees) are recorded in explicit event traces.
-/

namespace HueHttps

/-- ESP-IDF error codes used by the component (`esp_err.h`). -/
inductive EspErr where
  | ok               -- ESP_OK
  | fail             -- ESP_FAIL
  | invalidArg       -- ESP_ERR_INVALID_ARG
  | invalidState     -- ESP_ERR_INVALID_STATE
  | invalidResponse  -- ESP_ERR_INVALID_RESPONSE
  | invalidSize      -- ESP_ERR_INVALID_SIZE
  | noMem            -- ESP_ERR_NO_MEM
  | notFinished      -- ESP_ERR_NOT_FINISHED
  | wifiNotConnect   -- ESP_ERR_WIFI_NOT_CONNECT
  deriving DecidableEq, Repr

/-! ## Constants from `hue_https_private.h` and `hue_json_builder.h` -/

/-- `HUE_HTTPS_EVT_WIFI_CONNECTED_BIT` = BIT0. -/
def HUE_HTTPS_EVT_WIFI_CONNECTED_BIT : Nat := 1
/-- `HUE_HTTPS_EVT_TRIGGER_BIT` = BIT1. -/
def HUE_HTTPS_EVT_TRIGGER_BIT : Nat := 2
/-- `HUE_HTTPS_EVT_ABORT_BIT` = BIT2. -/
def HUE_HTTPS_EVT_ABORT_BIT : Nat := 4
/-- `HUE_HTTPS_EVT_EXIT_BIT` = BIT3. -/
def HUE_HTTPS_EVT_EXIT_BIT : Nat := 8
/-- `HUE_HTTPS_EVT_WAIT_BITS` = CONNECTED | TRIGGER | EXIT. -/
def HUE_HTTPS_EVT_WAIT_BITS : Nat :=
  HUE_HTTPS_EVT_WIFI_CONNECTED_BIT ||| HUE_HTTPS_EVT_TRIGGER_BIT ||| HUE_HTTPS_EVT_EXIT_BIT

/-- `HUE_BRIDGE_IP_LENGTH` (length of "000.000.000.000"). -/
def HUE_BRIDGE_IP_LENGTH : Nat := 15
/-- `HUE_BRIDGE_ID_LENGTH`. -/
def HUE_BRIDGE_ID_LENGTH : Nat := 16
/-- `HUE_APPLICATION_KEY_LENGTH`. -/
def HUE_APPLICATION_KEY_LENGTH : Nat := 40
/-- `HUE_RESOURCE_ID_LENGTH`. -/
def HUE_RESOURCE_ID_LENGTH : Nat := 36
/-- `HUE_RESOURCE_PATH_LENGTH` (length of "/clip/v2/resource/"). -/
def HUE_RESOURCE_PATH_LENGTH : Nat := 18
/-- `HUE_URL_BASE_MIN_LENGTH` = 8 + 7 + 18. -/
def HUE_URL_BASE_MIN_LENGTH : Nat := 33
/-- `HUE_URL_BASE_MAX_LENGTH` = 8 + 15 + 18. -/
def HUE_URL_BASE_MAX_LENGTH : Nat := 41
/-- `HUE_URL_BASE_SIZE` = MAX + 1. -/
def HUE_URL_BASE_SIZE : Nat := 42
/-- `HUE_URL_BUFFER_SIZE` = 42 + (14 + 36). -/
def HUE_URL_BUFFER_SIZE : Nat := 92
/-- `HUE_RESOURCE_TYPE_SIZE` (length of "grouped_light/"). -/
def HUE_RESOURCE_TYPE_SIZE : Nat := 14
/-- `HUE_RESOURCE_TYPE_MIN` (length of "light/"). -/
def HUE_RESOURCE_TYPE_MIN : Nat := 6
/-- `HUE_JSON_BUFFER_SIZE`. -/
def HUE_JSON_BUFFER_SIZE : Nat := 256

/-! ## `sscanf` model

The validators call `sscanf(s, FMT "%n", &chars_received)` where FMT is built
from suppressed conversions (`%*3u`, `%*16x`, `%*40[-_0-9a-zA-Z]`,
`%*8x-%*4x-...`).  `%n` stores the number of characters consumed so far; when
a matching or input failure occurs before `%n` is reached, `sscanf` returns
early and `chars_received` keeps its initial value `0`.

A format element is modelled as a partial consumer
`List Char → Option (List Char)` returning the remaining input on success.
Per C scanf semantics a numeric conversion skips leading whitespace and then
matches an optional sign followed by digits of the base, all within the field
width; a `%[...]` scan-set conversion skips no whitespace; a literal format
character matches exactly itself.  (The `0x`/`0X` prefix that `strtoul`
tolerates for base 16 is not modelled; no theorem below evaluates the
scanner on an input containing `x`.) -/

/-- C `isspace` for the default locale. -/
def isSpaceChar (c : Char) : Bool :=
  c = ' ' || c = '\t' || c = '\n' || c = Char.ofNat 11 || c = Char.ofNat 12 || c = '\r'

/-- Leading-whitespace skip performed by numeric scanf conversions. -/
def skipWs : List Char → List Char
  | [] => []
  | c :: cs => if isSpaceChar c then skipWs cs else c :: cs

/-- Hexadecimal digit of either case (the character class consumed by `%x`). -/
def isHexChar (c : Char) : Bool :=
  c.isDigit || ('a' ≤ c && c ≤ 'f') || ('A' ≤ c && c ≤ 'F')

/-- One suppressed numeric scanf conversion with field width `width` and
digit class `isDig`: skip whitespace, optionally a single sign, then one or
more digits, reading at most `width` characters (sign included); matching
failure if no digit is read. -/
def scanfUnsigned (isDig : Char → Bool) (width : Nat) (l : List Char) :
    Option (List Char) :=
  match skipWs l with
  | [] => none
  | c :: cs =>
    if c = '+' || c = '-' then
      let n := min (width - 1) (cs.takeWhile isDig).length
      if width ≤ 1 || n = 0 then none else some (cs.drop n)
    else
      let l1 := c :: cs
      let n := min width (l1.takeWhile isDig).length
      if n = 0 then none else some (l1.drop n)

/-- A literal (non-whitespace) character in a scanf format string. -/
def scanfLit (c : Char) : List Char → Option (List Char)
  | [] => none
  | d :: ds => if d = c then some ds else none

/-- A suppressed `%[...]` scan-set conversion: longest run (at most `width`)
of characters in the set, no whitespace skip, failure on an empty run. -/
def scanfCharSet (p : Char → Bool) (width : Nat) (l : List Char) :
    Option (List Char) :=
  let n := min width (l.takeWhile p).length
  if n = 0 then none else some (l.drop n)

/-- Format `HUE_BRIDGE_IP_FORMAT` = `"%*3u.%*3u.%*3u.%*3u"`. -/
def scanBridgeIpFmt (l : List Char) : Option (List Char) :=
  scanfUnsigned Char.isDigit 3 l |>.bind (scanfLit '.')
    |>.bind (scanfUnsigned Char.isDigit 3) |>.bind (scanfLit '.')
    |>.bind (scanfUnsigned Char.isDigit 3) |>.bind (scanfLit '.')
    |>.bind (scanfUnsigned Char.isDigit 3)

/-- Format `HUE_BRIDGE_ID_FORMAT` = `"%*16x"`. -/
def scanBridgeIdFmt (l : List Char) : Option (List Char) :=
  scanfUnsigned isHexChar 16 l

/-- Format `HUE_APPLICATION_KEY_FORMAT` = `"%*40[-_0-9a-zA-Z]"`. -/
def scanAppKeyFmt (l : List Char) : Option (List Char) :=
  scanfCharSet (fun c => c = '-' || c = '_' || c.isAlphanum) 40 l

/-- Format `HUE_RESOURCE_ID_FORMAT` = `"%*8x-%*4x-%*4x-%*4x-%*12x"`. -/
def scanResourceIdFmt (l : List Char) : Option (List Char) :=
  scanfUnsigned isHexChar 8 l |>.bind (scanfLit '-')
    |>.bind (scanfUnsigned isHexChar 4) |>.bind (scanfLit '-')
    |>.bind (scanfUnsigned isHexChar 4) |>.bind (scanfLit '-')
    |>.bind (scanfUnsigned isHexChar 4) |>.bind (scanfLit '-')
    |>.bind (scanfUnsigned isHexChar 12)

/-- `sscanf(s, fmt "%n", &n)`: the value stored into `n` (0 when the format
fails before reaching `%n`). -/
def sscanfN (fmt : List Char → Option (List Char)) (l : List Char) : Nat :=
  match fmt l with
  | some rest => l.length - rest.length
  | none => 0

/-! ## Validators (`check_bridge_ip`, `check_bridge_id`, `check_app_key`,
`hue_check_resource_id`) -/

/-- `check_bridge_ip` (hue_https_instance.c): length must equal
`HUE_BRIDGE_IP_LENGTH` and the scan of `HUE_BRIDGE_IP_FORMAT "%n"` must have
consumed exactly that many characters. -/
def check_bridge_ip (s : List Char) : EspErr :=
  if s.length ≠ HUE_BRIDGE_IP_LENGTH then .fail
  else if sscanfN scanBridgeIpFmt s ≠ HUE_BRIDGE_IP_LENGTH then .fail
  else .ok

/-- `check_bridge_id` (hue_https_instance.c). -/
def check_bridge_id (s : List Char) : EspErr :=
  if s.length ≠ HUE_BRIDGE_ID_LENGTH then .fail
  else if sscanfN scanBridgeIdFmt s ≠ HUE_BRIDGE_ID_LENGTH then .fail
  else .ok

/-- `check_app_key` (hue_https_instance.c). -/
def check_app_key (s : List Char) : EspErr :=
  if s.length ≠ HUE_APPLICATION_KEY_LENGTH then .fail
  else if sscanfN scanAppKeyFmt s ≠ HUE_APPLICATION_KEY_LENGTH then .fail
  else .ok

/-- `hue_check_resource_id` (hue_https.c). -/
def hue_check_resource_id (s : List Char) : EspErr :=
  if s.length ≠ HUE_RESOURCE_ID_LENGTH then .fail
  else if sscanfN scanResourceIdFmt s ≠ HUE_RESOURCE_ID_LENGTH then .fail
  else .ok

/-- Spec-side description of one address octet field as the code actually
constrains it: one to three decimal digits — exactly three once the total
length is pinned to 15.  (No 0-255 range check.) -/
def isOctet3 (l : List Char) : Prop :=
  l.length = 3 ∧ ∀ c ∈ l, c.isDigit = true

/-! ## Request dispatch model

Embedding of `hue_https_request_loop`, `hue_https_send_request` and the wake
test of `hue_https_request_task` (hue_https_instance.c).  Request handles are
compared by value; the two nullable `char*` buffers of
`hue_https_request_instance_t` are `Option (List Char)`.  Logging calls are
omitted (they affect no state the claims mention); transport calls, backoff
sleeps, event-bit mutation, mutex operations and buffer frees are recorded in
an event trace. -/

/-- `hue_https_request_instance_t`: the two owned buffers of a request. -/
structure Request where
  request_body : Option (List Char)
  resource_path : Option (List Char)
  deriving DecidableEq, Repr

/-- The fields of `hue_https_instance_t` that the dispatch path reads or
writes: the event-group bits, the two request slots, the URL buffer with its
resource-path fill position, and the configured retry bound. -/
structure HueInst where
  bits : Nat
  current_request_handle : Option Request
  next_request_handle : Option Request
  buff_url : List Char
  url_res_path_pos : Nat
  retry_attempts : Nat
  deriving DecidableEq, Repr

/-- Observable events of the dispatch path. -/
inductive Ev where
  | transportCall                 -- esp_http_client_perform invoked
  | sleep1s                       -- vTaskDelay(pdMS_TO_TICKS(1000))
  | mutexTake                     -- xSemaphoreTake(request_handle_mutex, portMAX_DELAY)
  | mutexGive                     -- xSemaphoreGive(request_handle_mutex)
  | setBits (m : Nat)             -- xEventGroupSetBits
  | clearBits (m : Nat)           -- xEventGroupClearBits
  | freeRequest (r : Request)     -- request buffers freed
  deriving DecidableEq, Repr

/-- Outcome of one `esp_http_client_perform` call: an ESP error (transport
failure) or success together with the HTTP status code. -/
inductive PerformRes where
  | performErr                    -- esp_http_client_perform ≠ ESP_OK
  | performOk (status : Nat)      -- ESP_OK with esp_http_client_get_status_code
  deriving DecidableEq, Repr

/-- Environment oracle for one delivery (`hue_https_send_request` call):
per loop iteration `n`, the event-group bits observed by
`xEventGroupGetBits` (other tasks may change flags concurrently), whether
`esp_http_client_init` succeeds, and the transport outcome. -/
structure SendEnv where
  bitsAt : Nat → Nat
  clientOkAt : Nat → Bool
  performAt : Nat → PerformRes

/-- `xEventGroupClearBits(bits, m)`: clear the bits of `m`
(`b AND NOT m`, expressed on `Nat` as `b XOR (b AND m)`). -/
def clearEvtBits (b m : Nat) : Nat := b ^^^ (b &&& m)

/-- The early-return guard of `hue_https_request_loop` (line 216), exactly as
written in C:
`(bits ^ HUE_HTTPS_EVT_WIFI_CONNECTED_BIT) & HUE_HTTPS_EVT_ABORT_BIT & HUE_HTTPS_EVT_EXIT_BIT`
is nonzero.  (`&` is left-associative, so this is
`((bits ^ 1) & 4) & 8`.)  The comment above the line states the intended
test: "Return ESP_FAIL if Connected Bit is not set or Abort/Exit Bits are
set". -/
def requestLoopGuard (bits : Nat) : Bool :=
  ((bits ^^^ HUE_HTTPS_EVT_WIFI_CONNECTED_BIT)
    &&& HUE_HTTPS_EVT_ABORT_BIT &&& HUE_HTTPS_EVT_EXIT_BIT) ≠ 0

/-- The guard the comment on line 215 of hue_https_instance.c describes
("Connected Bit is not set or Abort/Exit Bits are set"), for comparison with
`requestLoopGuard`. -/
def requestLoopGuardIntended (bits : Nat) : Bool :=
  (bits &&& HUE_HTTPS_EVT_WIFI_CONNECTED_BIT = 0)
  || (bits &&& (HUE_HTTPS_EVT_ABORT_BIT ||| HUE_HTTPS_EVT_EXIT_BIT) ≠ 0)

/-- `hue_https_request_loop` (hue_https_instance.c, lines 211-245): one
delivery attempt for the current request.  `bits` is the value read by
`xEventGroupGetBits`; `clientOk` and `pres` are the environment outcomes of
`esp_http_client_init` and `esp_http_client_perform`.  Returns the ESP error
code together with the trace of this attempt (a `transportCall` event exactly
when `esp_http_client_perform` runs). -/
def hue_https_request_loop (bits : Nat) (clientOk : Bool) (pres : PerformRes) :
    EspErr × List Ev :=
  if requestLoopGuard bits then (.fail, [])
  else if !clientOk then (.invalidState, [])
  else
    match pres with
    | .performErr => (.notFinished, [.transportCall])
    | .performOk status =>
      if status ≠ 200 then (.invalidResponse, [.transportCall])
      else (.ok, [.transportCall])

/-- The retry `while` loop of `hue_https_send_request` (lines 261-271).
Both `attempt_num` and `retry_attempts` are `uint8_t` in the C: at the
`k`-th loop iteration (counting from the loop entry) `attempt_num` holds
`k % 256`, and the loop guard `attempt_num <= retry_attempts` compares `k %
256` against the stored retry bound (a `uint8_t` value; `% 256` keeps the
model total on `Nat`).  Consequently at `retry_attempts = 255` the guard is
always true and `attempt_num++` wraps 255 → 0, so under persistent
transport failure the loop never exits.  The loop is therefore not total:
`fuel` bounds how many loop iterations are observed, and a `none` error
component means the loop has not exited within `fuel` iterations (the trace
component still lists the events of the observed iterations).  Each
admitted iteration runs `hue_https_request_loop`, breaks unless it returned
`ESP_ERR_NOT_FINISHED`, and otherwise increments `attempt_num` and sleeps
1 s before re-testing the guard. -/
def sendLoopAux (env : SendEnv) (retry : Nat) : Nat → Nat → List Ev × Option EspErr
  | 0, _ => ([], none)
  | fuel + 1, k =>
    if retry % 256 < k % 256 then ([], some .notFinished)
    else
      let r := hue_https_request_loop (env.bitsAt k) (env.clientOkAt k) (env.performAt k)
      if r.1 = .notFinished then
        let rest := sendLoopAux env retry fuel (k + 1)
        (r.2 ++ .sleep1s :: rest.1, rest.2)
      else (r.2, some r.1)

/-- The retry `while` loop of `hue_https_send_request` (lines 261-271)
entered with `attempt_num = 0`, observed for at most `fuel` iterations. -/
def send_request_loop (env : SendEnv) (fuel : Nat) (retry : Nat) :
    List Ev × Option EspErr :=
  sendLoopAux env retry fuel 0

/-- The promotion block of `hue_https_send_request` (lines 273-288), run
under the request-handle mutex: `current = next; next = NULL;` then raise
`Trigger` iff the new `current` is non-NULL, and clear `Abort`.  No free of
the old current request occurs in the source.  Returns the updated instance
and the trace of the block. -/
def promote (inst : HueInst) : HueInst × List Ev :=
  let newCur := inst.next_request_handle
  let bits1 := if newCur.isSome then inst.bits ||| HUE_HTTPS_EVT_TRIGGER_BIT else inst.bits
  let bits2 := clearEvtBits bits1 HUE_HTTPS_EVT_ABORT_BIT
  ({ inst with
      current_request_handle := newCur
      next_request_handle := none
      bits := bits2 },
   [.mutexTake]
     ++ (if newCur.isSome then [.setBits HUE_HTTPS_EVT_TRIGGER_BIT] else [])
     ++ [.clearBits HUE_HTTPS_EVT_ABORT_BIT, .mutexGive])

/-- `strncpy(&buff_url[pos], res_path, HUE_URL_BUFFER_SIZE - pos)`: the URL
buffer keeps its first `pos` characters and receives the resource path
(truncated to the remaining capacity) after them. -/
def strncpyUrl (buff : List Char) (pos : Nat) (res_path : List Char) : List Char :=
  buff.take pos ++ res_path.take (HUE_URL_BUFFER_SIZE - pos)

/-- `hue_https_send_request` (hue_https_instance.c, lines 247-288): NULL
checks on the handle's current request and its buffers, the bounds check on
`url_res_path_pos`, the resource-path copy into the URL buffer, the retry
loop, then promotion under the mutex.  The instance handle itself is
non-NULL by construction (the state is the pointee).  Returns `none` when
the retry loop has not exited within `fuel` observed iterations — the C is
then still inside the loop and promotion has not happened (at
`retry_attempts = 255` with a persistently failing transport this is the
case for every `fuel`); otherwise `some` of the post state and the trace. -/
def hue_https_send_request (fuel : Nat) (inst : HueInst) (env : SendEnv) :
    Option (HueInst × List Ev) :=
  match inst.current_request_handle with
  | none => some (inst, [])
  | some req =>
    match req.resource_path, req.request_body with
    | some rp, some _body =>
      if inst.url_res_path_pos > HUE_URL_BASE_MAX_LENGTH
          || inst.url_res_path_pos < HUE_URL_BASE_MIN_LENGTH then some (inst, [])
      else
        let inst1 := { inst with
          buff_url := strncpyUrl inst.buff_url inst.url_res_path_pos rp }
        let lp := send_request_loop env fuel inst1.retry_attempts
        match lp.2 with
        | none => none
        | some _ =>
          let pr := promote inst1
          some (pr.1, lp.1 ++ pr.2)
    | _, _ => some (inst, [])

/-- The decision the worker task takes on one wake
(`hue_https_request_task`, lines 296-301). -/
inductive WakeAction where
  | exitTask       -- break out of the loop, vTaskDelete
  | keepWaiting    -- continue
  | deliver        -- call hue_https_send_request
  deriving DecidableEq, Repr

/-- One wake of `hue_https_request_task`: with `bits` the value returned by
`xEventGroupWaitBits(handle_evt, HUE_HTTPS_EVT_WAIT_BITS, pdFALSE, pdFALSE,
portMAX_DELAY)`, exit on `Exit`, keep waiting when neither `Connected` nor
`Trigger` is set, otherwise call `hue_https_send_request`. -/
def hue_https_request_task_step (bits : Nat) : WakeAction :=
  if bits &&& HUE_HTTPS_EVT_EXIT_BIT ≠ 0 then .exitTask
  else if bits &&& (HUE_HTTPS_EVT_WIFI_CONNECTED_BIT ||| HUE_HTTPS_EVT_TRIGGER_BIT) = 0 then
    .keepWaiting
  else .deliver

/-- Modelled from the spec: `report_connected(handle)` ("set ... the
`Connected` flag", §4.4).  The entry point is absent from the source tree
(only referenced in documentation comments); per the spec it sets the
level-triggered `Connected` bit of the signal set. -/
def report_connected (inst : HueInst) : HueInst :=
  { inst with bits := inst.bits ||| HUE_HTTPS_EVT_WIFI_CONNECTED_BIT }

/-- Modelled from the spec: `report_disconnected(handle)` ("set/clear the
`Connected` flag", §4.4).  The entry point is absent from the source tree;
per the spec it clears the `Connected` bit of the signal set. -/
def report_disconnected (inst : HueInst) : HueInst :=
  { inst with bits := clearEvtBits inst.bits HUE_HTTPS_EVT_WIFI_CONNECTED_BIT }

/-- Number of transport calls in a trace. -/
def countTransport (tr : List Ev) : Nat :=
  tr.countP (fun e => e = .transportCall)

/-! ## Instance lifecycle model

Embedding of `alloc_hue_https_instance`, `free_hue_https_instance`,
`hue_https_create_instance`, `hue_https_destroy_instance`
(hue_https_instance.c) and `hue_https_create_light_request` with its helpers
(hue_https.c).  FreeRTOS / heap object handles are `CPtr` values (`null`
models the C null pointer); the contents of freshly `malloc`ed memory are
indeterminate, so the environment oracle supplies the initial (garbage)
field values of the instance struct.  Calls that release or create external
resources are recorded in a `LcEv` trace. -/

/-- A C pointer value: null or some address. -/
inductive CPtr where
  | null
  | addr (id : Nat)
  deriving DecidableEq, Repr

/-- Lifecycle events: resource creation and release calls. -/
inductive LcEv where
  | mallocInst                     -- malloc(sizeof(hue_https_instance_t))
  | xEventGroupCreate (res : CPtr) -- event group creation (null = failure)
  | xSemaphoreCreateMutex (res : CPtr)
  | xTaskCreate (ok : Bool)
  | vTaskDelete (p : CPtr)
  | vEventGroupDelete (p : CPtr)
  | vSemaphoreDelete (p : CPtr)
  | freeInst                       -- free(*p_hue_https_handle)
  | mallocReq                      -- malloc(sizeof(hue_https_request_instance_t))
  | callocBody (n : Nat)           -- calloc for request_body
  | callocPath (n : Nat)           -- calloc for resource_path
  | freeBody                       -- free(request_body)
  | freePath                       -- free(resource_path)
  | freeReqInst                    -- free(*p_request_handle)
  deriving DecidableEq, Repr

/-- The fields of `hue_https_instance_t` that the lifecycle path touches.
`current_request_handle`/`next_request_handle` are plain pointers here (their
pointees are irrelevant to the lifecycle claims). -/
structure InstMem where
  task_handle : CPtr
  handle_evt : CPtr
  request_handle_mutex : CPtr
  buff_url : List Char
  url_res_path_pos : Nat
  bridge_id : List Char
  app_key : List Char
  current_request_handle : CPtr
  next_request_handle : CPtr
  retry_attempts : Nat
  deriving DecidableEq, Repr

/-- `hue_https_config_t`: nullable string pointers plus the retry bound. -/
structure HueHttpsConfig where
  bridge_ip : Option (List Char)
  bridge_id : Option (List Char)
  application_key : Option (List Char)
  task_id : Option (List Char)
  retry_attempts : Nat
  deriving DecidableEq, Repr

/-- Environment oracle for `alloc_hue_https_instance` and
`hue_https_create_instance`: whether `malloc` succeeds, the indeterminate
contents of the freshly allocated struct, and the results of
`xEventGroupCreate`, `xSemaphoreCreateMutex` and `xTaskCreate`. -/
structure CreateEnv where
  mallocOk : Bool
  garbage : InstMem
  evtCreateRes : CPtr
  mutexCreateRes : CPtr
  taskCreateRes : Option CPtr
  deriving Repr

/-- `free_hue_https_instance` (lines 490-505): for a non-NULL handle, delete
the task, event group and mutex whenever the corresponding field is nonzero,
then free the struct and set the handle to NULL.  Note the function tests
the *field values*, whatever they are — including indeterminate contents of
fields never initialised. -/
def free_hue_https_instance (handle : Option InstMem) :
    Option InstMem × List LcEv :=
  match handle with
  | none => (none, [])
  | some inst =>
    (none,
      (if inst.task_handle ≠ .null then [.vTaskDelete inst.task_handle] else [])
        ++ (if inst.handle_evt ≠ .null then [.vEventGroupDelete inst.handle_evt] else [])
        ++ (if inst.request_handle_mutex ≠ .null then
              [.vSemaphoreDelete inst.request_handle_mutex] else [])
        ++ [.freeInst])

/-- `fill_bridge_url_base` (lines 388-414): re-check the bridge IP, clear the
URL buffer, `snprintf` the base URL `https://<ip>/clip/v2/resource/` and
record its length as the resource-path fill position.  With a 15-character
IP the printed length is 41 = `HUE_URL_BASE_MAX_LENGTH`, within the buffer,
so the `snprintf` encoding-failure branch cannot fire and is not modelled. -/
def fill_bridge_url_base (inst : InstMem) (bridge_ip : List Char) :
    EspErr × InstMem :=
  if check_bridge_ip bridge_ip ≠ .ok then (.invalidArg, inst)
  else
    let url := "https://".toList ++ bridge_ip ++ "/clip/v2/resource/".toList
    if url.length < HUE_URL_BASE_MIN_LENGTH || url.length > HUE_URL_BASE_MAX_LENGTH then
      (.invalidSize, inst)
    else
      (.ok, { inst with buff_url := url, url_res_path_pos := url.length })

/-- `fill_bridge_id` (lines 438-451): re-check, `strncpy` the 16 characters
into the instance buffer, re-check the copy.  The C destination buffer is 17
bytes whose terminator byte is malloc garbage; the model takes the benign
(NUL) case, in which the copy equals the source and the re-check passes. -/
def fill_bridge_id (inst : InstMem) (bridge_id : List Char) :
    EspErr × InstMem :=
  if check_bridge_id bridge_id ≠ .ok then (.invalidArg, inst)
  else
    let inst := { inst with bridge_id := bridge_id }
    if check_bridge_id inst.bridge_id ≠ .ok then (.invalidResponse, inst)
    else (.ok, inst)

/-- `fill_app_key` (lines 475-488), modelled like `fill_bridge_id`. -/
def fill_app_key (inst : InstMem) (app_key : List Char) : EspErr × InstMem :=
  if check_app_key app_key ≠ .ok then (.invalidArg, inst)
  else
    let inst := { inst with app_key := app_key }
    if check_app_key inst.app_key ≠ .ok then (.invalidResponse, inst)
    else (.ok, inst)

/-- `alloc_hue_https_instance` (lines 507-567): malloc the struct (fields
indeterminate), fill URL base, bridge id and app key (unwinding through
`free_hue_https_instance` on failure), create the event group and the mutex
(unwinding on failure), then NULL the request-slot and task fields, set up
the client config (not modelled: it only copies pointers read elsewhere) and
store `retry_attempts`.  Returns the error code, the value left in
`*p_hue_https_handle`, and the trace. -/
def alloc_hue_https_instance (env : CreateEnv) (cfg_ip cfg_id cfg_key : List Char)
    (cfg_retry : Nat) : EspErr × Option InstMem × List LcEv :=
  if !env.mallocOk then (.noMem, none, [])
  else
    let inst0 := env.garbage
    let r1 := fill_bridge_url_base inst0 cfg_ip
    if r1.1 ≠ .ok then
      let f := free_hue_https_instance (some r1.2)
      (r1.1, f.1, .mallocInst :: f.2)
    else
      let r2 := fill_bridge_id r1.2 cfg_id
      if r2.1 ≠ .ok then
        let f := free_hue_https_instance (some r2.2)
        (r2.1, f.1, .mallocInst :: f.2)
      else
        let r3 := fill_app_key r2.2 cfg_key
        if r3.1 ≠ .ok then
          let f := free_hue_https_instance (some r3.2)
          (r3.1, f.1, .mallocInst :: f.2)
        else
          let inst1 := { r3.2 with handle_evt := env.evtCreateRes }
          if env.evtCreateRes = .null then
            let f := free_hue_https_instance (some inst1)
            (.noMem, f.1, .mallocInst :: .xEventGroupCreate .null :: f.2)
          else
            let inst2 := { inst1 with request_handle_mutex := env.mutexCreateRes }
            if env.mutexCreateRes = .null then
              let f := free_hue_https_instance (some inst2)
              (.noMem, f.1,
                .mallocInst :: .xEventGroupCreate env.evtCreateRes
                  :: .xSemaphoreCreateMutex .null :: f.2)
            else
              let inst3 := { inst2 with
                current_request_handle := .null
                next_request_handle := .null
                task_handle := .null
                retry_attempts := cfg_retry }
              (.ok, some inst3,
                [.mallocInst, .xEventGroupCreate env.evtCreateRes,
                 .xSemaphoreCreateMutex env.mutexCreateRes])

/-- `hue_https_create_instance` (lines 173-202): NULL checks on the handle
pointer, the already-created-handle check, NULL checks on config and its
strings, the three format checks, allocation, then task creation (unwinding
on failure).  `p_handle` models `p_hue_https_handle` (`none` = the pointer
itself is NULL; `some h` = it points at handle value `h`).  Returns the
error, the final `*p_hue_https_handle`, and the trace. -/
def hue_https_create_instance (env : CreateEnv)
    (p_handle : Option (Option InstMem)) (p_config : Option HueHttpsConfig) :
    EspErr × Option (Option InstMem) × List LcEv :=
  match p_handle with
  | none => (.invalidArg, none, [])
  | some handle =>
    match handle with
    | some _ => (.invalidArg, p_handle, [])
    | none =>
      match p_config with
      | none => (.invalidArg, p_handle, [])
      | some cfg =>
        match cfg.bridge_ip, cfg.bridge_id, cfg.application_key with
        | some ip, some bid, some key =>
          if check_bridge_ip ip ≠ .ok then (.invalidArg, p_handle, [])
          else if check_bridge_id bid ≠ .ok then (.invalidArg, p_handle, [])
          else if check_app_key key ≠ .ok then (.invalidArg, p_handle, [])
          else
            let a := alloc_hue_https_instance env ip bid key cfg.retry_attempts
            if a.1 ≠ .ok then (a.1, some a.2.1, a.2.2)
            else
              match a.2.1, env.taskCreateRes with
              | some inst, some tptr =>
                (.ok, some (some { inst with task_handle := tptr }),
                  a.2.2 ++ [.xTaskCreate true])
              | some inst, none =>
                let f := free_hue_https_instance (some inst)
                (.noMem, some f.1, a.2.2 ++ .xTaskCreate false :: f.2)
              | none, _ => (.ok, some none, a.2.2)  -- unreachable: ok implies some
        | _, _, _ => (.invalidArg, p_handle, [])

/-- `hue_https_destroy_instance` (line 205):
`{return ESP_ERR_NOT_FINISHED;}` — the body is a bare return marked
`TODO: Instance destroy`; nothing is signalled, waited on, released or
cleared. -/
def hue_https_destroy_instance (p_handle : Option (Option InstMem)) :
    EspErr × Option (Option InstMem) × List LcEv :=
  (.notFinished, p_handle, [])

/-! ### Request creation (`hue_https.c`, restructured section) -/

/-- `hue_https_request_instance_t` as touched by the allocation path:
nullable owned buffers. -/
structure ReqMem where
  request_body : Option (List Char)
  resource_path : Option (List Char)
  deriving DecidableEq, Repr

/-- `hue_json_buffer_t`: the fixed JSON buffer and the two resource strings
(written by the external JSON-builder collaborator). -/
structure JsonBuf where
  resource_type : Option (List Char)
  resource_id : Option (List Char)
  buff : List Char
  deriving DecidableEq, Repr

/-- `hue_light_data_t`: the resource id plus the actuation fields, which are
read only by the external JSON-builder collaborator and are abstracted into
`payload`. -/
structure LightData where
  resource_id : Option (List Char)
  payload : Nat
  deriving DecidableEq, Repr

/-- Environment oracle for request creation: the outcome of the external
JSON builder `hue_light_data_to_json` (an error code and the buffer it
fills) and the heap allocation outcomes. -/
structure ReqCreateEnv where
  toJson : LightData → EspErr × JsonBuf
  mallocReqOk : Bool
  callocBodyOk : Bool
  callocPathOk : Bool

/-- `hue_https_free_request` (hue_https.c lines 389-403): free whichever
buffers are allocated, free the struct, NULL the handle. -/
def hue_https_free_request (handle : Option ReqMem) :
    Option ReqMem × List LcEv :=
  match handle with
  | none => (none, [])
  | some r =>
    (none,
      (if r.request_body.isSome then [.freeBody] else [])
        ++ (if r.resource_path.isSome then [.freePath] else [])
        ++ [.freeReqInst])

/-- `hue_https_allocate_request_body` (lines 418-455): bounds checks on the
JSON string, free of any previous body, exact-fit `calloc`, copy.  The
redundant post-copy `strlen` re-check always passes in the model (lists have
no interior NUL). -/
def hue_https_allocate_request_body (env : ReqCreateEnv) (req : ReqMem)
    (jb : JsonBuf) : EspErr × ReqMem × List LcEv :=
  let str_len := jb.buff.length
  if str_len = 0 then (.invalidSize, req, [])
  else if str_len ≥ HUE_JSON_BUFFER_SIZE then (.invalidSize, req, [])
  else
    let freeTr : List LcEv := if req.request_body.isSome then [.freeBody] else []
    if !env.callocBodyOk then
      (.noMem, { req with request_body := none }, freeTr ++ [.callocBody (str_len + 1)])
    else
      (.ok, { req with request_body := some jb.buff },
        freeTr ++ [.callocBody (str_len + 1)])

/-- `hue_https_allocate_resource_path` (lines 470-512): length bounds on
`resource_type ++ "/" ++ resource_id`, free of any previous path, exact-fit
`calloc`, `snprintf "%s/%s"`.  The post-print length re-check always passes
in the model. -/
def hue_https_allocate_resource_path (env : ReqCreateEnv) (req : ReqMem)
    (jb : JsonBuf) : EspErr × ReqMem × List LcEv :=
  match jb.resource_type, jb.resource_id with
  | some rt, some rid =>
    let str_len := rt.length + 1 + rid.length
    if str_len < HUE_RESOURCE_TYPE_MIN + HUE_RESOURCE_ID_LENGTH then (.invalidSize, req, [])
    else if str_len > HUE_RESOURCE_TYPE_SIZE + HUE_RESOURCE_ID_LENGTH then
      (.invalidSize, req, [])
    else
      let freeTr : List LcEv := if req.resource_path.isSome then [.freePath] else []
      if !env.callocPathOk then
        (.noMem, { req with resource_path := none }, freeTr ++ [.callocPath (str_len + 1)])
      else
        (.ok, { req with resource_path := some (rt ++ '/' :: rid) },
          freeTr ++ [.callocPath (str_len + 1)])
  | _, _ => (.invalidArg, req, [])

/-- `hue_https_allocate_request` (lines 528-561): malloc the struct, NULL
its buffers, fill body then resource path, unwinding through
`hue_https_free_request` on failure. -/
def hue_https_allocate_request (env : ReqCreateEnv) (jb : JsonBuf) :
    EspErr × Option ReqMem × List LcEv :=
  if !env.mallocReqOk then (.noMem, none, [])
  else
    let req0 : ReqMem := { request_body := none, resource_path := none }
    let r1 := hue_https_allocate_request_body env req0 jb
    if r1.1 ≠ .ok then
      let f := hue_https_free_request (some r1.2.1)
      (r1.1, f.1, .mallocReq :: r1.2.2 ++ f.2)
    else
      let r2 := hue_https_allocate_resource_path env r1.2.1 jb
      if r2.1 ≠ .ok then
        let f := hue_https_free_request (some r2.2.1)
        (r2.1, f.1, .mallocReq :: r1.2.2 ++ r2.2.2 ++ f.2)
      else
        (.ok, some r2.2.1, .mallocReq :: r1.2.2 ++ r2.2.2)

/-- `hue_https_create_light_request` (hue_https.c, lines 578-597): NULL
check on the handle pointer, the already-created-handle check, NULL checks
on the light data and its resource id, the resource-id format check, JSON
generation by the external builder, then request allocation.  `p_handle`
models `p_request_handle` as in `hue_https_create_instance`. -/
def hue_https_create_light_request (env : ReqCreateEnv)
    (p_handle : Option (Option ReqMem)) (p_light : Option LightData) :
    EspErr × Option (Option ReqMem) × List LcEv :=
  match p_handle with
  | none => (.invalidArg, none, [])
  | some handle =>
    match handle with
    | some _ => (.invalidArg, p_handle, [])
    | none =>
      match p_light with
      | none => (.invalidArg, p_handle, [])
      | some ld =>
        match ld.resource_id with
        | none => (.invalidArg, p_handle, [])
        | some rid =>
          if hue_check_resource_id rid ≠ .ok then (.invalidArg, p_handle, [])
          else
            let j := env.toJson ld
            if j.1 ≠ .ok then (j.1, p_handle, [])
            else
              let a := hue_https_allocate_request env j.2
              (a.1, some a.2.1, a.2.2)

/-! ## Helper lemmas on the dispatch model -/

/-- The C guard expression on line 216 is identically false: it is
`((bits ^ BIT0) & BIT2) & BIT3`, and `BIT2 & BIT3 = 0`. -/
theorem requestLoopGuard_false (bits : Nat) : requestLoopGuard bits = false := by
  have h48 : HUE_HTTPS_EVT_ABORT_BIT &&& HUE_HTTPS_EVT_EXIT_BIT = 0 := by decide
  unfold requestLoopGuard
  rw [Nat.land_assoc, h48]
  simp

theorem clearEvtBits_testBit (b m i : Nat) :
    (clearEvtBits b m).testBit i = (b.testBit i && !(m.testBit i)) := by
  simp only [clearEvtBits, Nat.testBit_xor, Nat.testBit_land]
  cases b.testBit i <;> cases m.testBit i <;> rfl

/-- Every event emitted by one `hue_https_request_loop` call is a transport
call. -/
theorem request_loop_events (b : Nat) (c : Bool) (p : PerformRes) (e : Ev)
    (he : e ∈ (hue_https_request_loop b c p).2) : e = .transportCall := by
  unfold hue_https_request_loop at he
  rw [requestLoopGuard_false] at he
  cases c <;> cases p <;> simp_all
  split at he <;> simp_all

/-- `hue_https_request_loop` asks for a retry (returns
`ESP_ERR_NOT_FINISHED`) exactly when the client was created and the
transport call itself failed. -/
theorem request_loop_notFinished_iff (b : Nat) (c : Bool) (p : PerformRes) :
    (hue_https_request_loop b c p).1 = .notFinished ↔ c = true ∧ p = .performErr := by
  unfold hue_https_request_loop
  rw [requestLoopGuard_false]
  cases c <;> cases p <;> simp
  split <;> simp_all

/-- With a transport that always fails at the transport level and a
non-wrapping retry bound (`retry ≤ 254`), the loop entered at iteration `k`
runs its remaining `retry + 1 - k` admitted iterations — one transport call
followed by the 1-second backoff each — and then exits through the guard. -/
theorem sendLoopAux_always_fail (env : SendEnv) (retry : Nat)
    (hr : retry ≤ 254)
    (hc : ∀ n, env.clientOkAt n = true)
    (hp : ∀ n, env.performAt n = .performErr) :
    ∀ fuel k, k ≤ retry + 1 → retry + 1 - k < fuel →
      sendLoopAux env retry fuel k
        = ((List.replicate (retry + 1 - k) [Ev.transportCall, Ev.sleep1s]).flatten,
           some .notFinished) := by
  intro fuel
  induction fuel with
  | zero => intro k _ h2; omega
  | succ f ih =>
    intro k hk h2
    have hretry : retry % 256 = retry := Nat.mod_eq_of_lt (by omega)
    by_cases hke : k = retry + 1
    · subst hke
      have hg : retry % 256 < (retry + 1) % 256 := by
        rw [hretry, Nat.mod_eq_of_lt (by omega)]
        omega
      simp [sendLoopAux, if_pos hg]
    · have hg : ¬ retry % 256 < k % 256 := by
        rw [hretry, Nat.mod_eq_of_lt (show k < 256 by omega)]
        omega
      simp only [sendLoopAux, if_neg hg, hc k, hp k, hue_https_request_loop,
        requestLoopGuard_false, Bool.false_eq_true, if_false,
        ih (k + 1) (by omega) (by omega)]
      rw [show retry + 1 - k = (retry + 1 - (k + 1)) + 1 by omega,
        List.replicate_succ, List.flatten_cons]
      rfl

/-- With a transport that always fails and the wrapping retry bound 255,
the guard `attempt_num <= retry_attempts` is always true for a `uint8_t`
counter, so the loop performs one transport attempt and one backoff per
iteration and never exits, however many iterations are observed. -/
theorem sendLoopAux_wrap_diverges (env : SendEnv)
    (hc : ∀ n, env.clientOkAt n = true)
    (hp : ∀ n, env.performAt n = .performErr) :
    ∀ fuel k, sendLoopAux env 255 fuel k
      = ((List.replicate fuel [Ev.transportCall, Ev.sleep1s]).flatten, none) := by
  intro fuel
  induction fuel with
  | zero => intro k; rfl
  | succ f ih =>
    intro k
    have hg : ¬ (255 % 256 < k % 256) := by
      have hlt : k % 256 < 256 := Nat.mod_lt k (by omega)
      omega
    simp only [sendLoopAux, if_neg hg, hc k, hp k, hue_https_request_loop,
      requestLoopGuard_false, Bool.false_eq_true, if_false, ih (k + 1),
      List.replicate_succ, List.flatten_cons]
    rfl

theorem countTransport_append (l₁ l₂ : List Ev) :
    countTransport (l₁ ++ l₂) = countTransport l₁ + countTransport l₂ :=
  List.countP_append _ _ _

theorem countTransport_replicate_join (m : Nat) :
    countTransport (List.replicate m [Ev.transportCall, Ev.sleep1s]).flatten = m := by
  have h1 : countTransport [Ev.transportCall, Ev.sleep1s] = 1 := by decide
  induction m with
  | zero => rfl
  | succ k ih =>
    simp only [List.replicate_succ, List.flatten_cons, countTransport_append, ih, h1]
    omega

/-- No event of the retry loop is a request free. -/
theorem sendLoopAux_no_free (env : SendEnv) (retry : Nat) (r' : Request) :
    ∀ fuel k, Ev.freeRequest r' ∉ (sendLoopAux env retry fuel k).1 := by
  intro fuel
  induction fuel with
  | zero => intro k h; simp [sendLoopAux] at h
  | succ f ih =>
    intro k h
    simp only [sendLoopAux] at h
    split at h
    · simp at h
    · split at h
      · rcases List.mem_append.mp h with h1 | h1
        · exact absurd (request_loop_events _ _ _ _ h1) (by simp)
        · rcases List.mem_cons.mp h1 with h2 | h2
          · exact absurd h2 (by simp)
          · exact ih (k + 1) h2
      · exact absurd (request_loop_events _ _ _ _ h) (by simp)

/-- Evaluation of `hue_https_send_request` when the current slot holds a
request with both buffers present and the fill position is in range, and
the retry loop exits within the observed iterations: the loop trace is
followed by promotion. -/
theorem send_request_eq_some (fuel : Nat) (inst : HueInst) (env : SendEnv)
    (req : Request) (rp body : List Char) (e : EspErr)
    (hcur : inst.current_request_handle = some req)
    (hrp : req.resource_path = some rp)
    (hbody : req.request_body = some body)
    (hpos1 : HUE_URL_BASE_MIN_LENGTH ≤ inst.url_res_path_pos)
    (hpos2 : inst.url_res_path_pos ≤ HUE_URL_BASE_MAX_LENGTH)
    (hloop : (send_request_loop env fuel inst.retry_attempts).2 = some e) :
    hue_https_send_request fuel inst env =
      some ((promote { inst with
          buff_url := strncpyUrl inst.buff_url inst.url_res_path_pos rp }).1,
        (send_request_loop env fuel inst.retry_attempts).1
          ++ (promote { inst with
              buff_url := strncpyUrl inst.buff_url inst.url_res_path_pos rp }).2) := by
  have hgt : (decide (inst.url_res_path_pos > HUE_URL_BASE_MAX_LENGTH)
      || decide (inst.url_res_path_pos < HUE_URL_BASE_MIN_LENGTH)) = false := by
    simp only [Bool.or_eq_false_iff, decide_eq_false_iff_not, not_lt]
    exact ⟨hpos2, hpos1⟩
  unfold hue_https_send_request
  simp only [hcur, hrp, hbody, hgt, Bool.false_eq_true, if_false, hloop]

/-- Evaluation of `hue_https_send_request` when the retry loop does not
exit within the observed iterations: promotion is not reached. -/
theorem send_request_eq_none (fuel : Nat) (inst : HueInst) (env : SendEnv)
    (req : Request) (rp body : List Char)
    (hcur : inst.current_request_handle = some req)
    (hrp : req.resource_path = some rp)
    (hbody : req.request_body = some body)
    (hpos1 : HUE_URL_BASE_MIN_LENGTH ≤ inst.url_res_path_pos)
    (hpos2 : inst.url_res_path_pos ≤ HUE_URL_BASE_MAX_LENGTH)
    (hloop : (send_request_loop env fuel inst.retry_attempts).2 = none) :
    hue_https_send_request fuel inst env = none := by
  have hgt : (decide (inst.url_res_path_pos > HUE_URL_BASE_MAX_LENGTH)
      || decide (inst.url_res_path_pos < HUE_URL_BASE_MIN_LENGTH)) = false := by
    simp only [Bool.or_eq_false_iff, decide_eq_false_iff_not, not_lt]
    exact ⟨hpos2, hpos1⟩
  unfold hue_https_send_request
  simp only [hcur, hrp, hbody, hgt, Bool.false_eq_true, if_false, hloop]

/-! ## Characterization of the scanf-based validators (for C6) -/

theorem takeWhile_eq_self_of_all (p : Char → Bool) :
    ∀ l : List Char, (∀ c ∈ l, p c = true) → l.takeWhile p = l := by
  intro l
  induction l with
  | nil => intro _; rfl
  | cons c cs ih =>
    intro h
    simp [List.takeWhile_cons, h c (List.mem_cons_self c cs),
      ih fun x hx => h x (List.mem_cons_of_mem c hx)]

theorem takeWhile_append_of_all (p : Char → Bool) :
    ∀ a b : List Char, (∀ c ∈ a, p c = true) →
      (a ++ b).takeWhile p = a ++ b.takeWhile p := by
  intro a
  induction a with
  | nil => intro b _; rfl
  | cons c cs ih =>
    intro b h
    simp [List.takeWhile_cons, h c (List.mem_cons_self c cs),
      ih b fun x hx => h x (List.mem_cons_of_mem c hx)]

theorem takeWhile_length_le (p : Char → Bool) :
    ∀ l : List Char, (l.takeWhile p).length ≤ l.length := by
  intro l
  induction l with
  | nil => exact Nat.le_refl 0
  | cons c cs ih =>
    rw [List.takeWhile_cons]
    by_cases h : p c = true
    · rw [if_pos h]; simpa using ih
    · rw [if_neg h]; simp

/-- On input free of leading whitespace and signs, a numeric scanf
conversion consumes `min width (digit-run length)` characters, failing when
that is zero. -/
theorem scanfUnsigned_no_ws_sign (isDig : Char → Bool) (width : Nat) (l : List Char)
    (hl : ∀ c ∈ l, isSpaceChar c = false ∧ (c = '+' || c = '-') = false) :
    scanfUnsigned isDig width l =
      if min width (l.takeWhile isDig).length = 0 then none
      else some (l.drop (min width (l.takeWhile isDig).length)) := by
  cases l with
  | nil => simp [scanfUnsigned, skipWs]
  | cons c cs =>
    have h1 := hl c (List.mem_cons_self c cs)
    unfold scanfUnsigned
    rw [show skipWs (c :: cs) = c :: cs by simp [skipWs, h1.1]]
    simp [h1.2]

/-- Decimal digits and the dot are neither scanf whitespace nor signs. -/
theorem digit_or_dot_scan_ok (c : Char) (h : c.isDigit = true ∨ c = '.') :
    isSpaceChar c = false ∧ ((c = '+' || c = '-') = false) := by
  rcases h with h | h
  · constructor
    · by_contra hs
      rw [Bool.not_eq_false] at hs
      unfold isSpaceChar at hs
      simp only [Bool.or_eq_true, decide_eq_true_eq] at hs
      rcases hs with ((((h1 | h1) | h1) | h1) | h1) | h1 <;> subst h1 <;>
        exact absurd h (by decide)
    · simp only [Bool.or_eq_false_iff, decide_eq_false_iff_not]
      constructor <;> intro h1 <;> subst h1 <;> exact absurd h (by decide)
  · subst h; exact ⟨by decide, by decide⟩

/-- Hexadecimal characters are neither scanf whitespace nor signs. -/
theorem hex_scan_ok (c : Char) (h : isHexChar c = true) :
    isSpaceChar c = false ∧ ((c = '+' || c = '-') = false) := by
  constructor
  · by_contra hs
    rw [Bool.not_eq_false] at hs
    unfold isSpaceChar at hs
    simp only [Bool.or_eq_true, decide_eq_true_eq] at hs
    rcases hs with ((((h1 | h1) | h1) | h1) | h1) | h1 <;> subst h1 <;>
      exact absurd h (by decide)
  · simp only [Bool.or_eq_false_iff, decide_eq_false_iff_not]
    constructor <;> intro h1 <;> subst h1 <;> exact absurd h (by decide)

/-- Forward characterization of one numeric conversion: on success it split
off a nonempty run of at most `width` digits. -/
theorem scanfUnsigned_eq_some (isDig : Char → Bool) (width : Nat) (l r : List Char)
    (hl : ∀ c ∈ l, isSpaceChar c = false ∧ (c = '+' || c = '-') = false)
    (h : scanfUnsigned isDig width l = some r) :
    ∃ a, l = a ++ r ∧ 1 ≤ a.length ∧ a.length ≤ width ∧ ∀ c ∈ a, isDig c = true := by
  rw [scanfUnsigned_no_ws_sign isDig width l hl] at h
  set n := min width (l.takeWhile isDig).length with hn
  by_cases h0 : n = 0
  · rw [if_pos h0] at h; exact absurd h (by simp)
  · rw [if_neg h0] at h
    have hr : r = l.drop n := (Option.some_inj.mp h).symm
    have hnw : n ≤ width := hn ▸ Nat.min_le_left _ _
    have hntw : n ≤ (l.takeWhile isDig).length := hn ▸ Nat.min_le_right _ _
    have hnl : n ≤ l.length := le_trans hntw (takeWhile_length_le isDig l)
    refine ⟨l.take n, ?_, ?_, ?_, ?_⟩
    · rw [hr, List.take_append_drop]
    · rw [List.length_take]; omega
    · rw [List.length_take]; omega
    · intro c hc
      have h2 : l.take n = (l.takeWhile isDig).take n := by
        conv_lhs => rw [← List.takeWhile_append_dropWhile (p := isDig) (l := l)]
        rw [List.take_append_of_le_length hntw]
      rw [h2] at hc
      exact List.mem_takeWhile_imp (List.take_subset n _ hc)

/-- Backward evaluation of one numeric conversion on a digit run of exactly
the field width. -/
theorem scanfUnsigned_exact (isDig : Char → Bool) (width : Nat) (a rest : List Char)
    (ha : ∀ c ∈ a, isDig c = true) (hlen : a.length = width) (hw : 1 ≤ width)
    (hl : ∀ c ∈ a ++ rest, isSpaceChar c = false ∧ (c = '+' || c = '-') = false) :
    scanfUnsigned isDig width (a ++ rest) = some rest := by
  rw [scanfUnsigned_no_ws_sign isDig width _ hl,
    takeWhile_append_of_all isDig a rest ha]
  have hlen2 : width ≤ (a ++ rest.takeWhile isDig).length := by
    rw [List.length_append]; omega
  rw [Nat.min_eq_left hlen2, if_neg (by omega)]
  rw [show width = a.length from hlen.symm, List.drop_left]

theorem scanfLit_cons (c : Char) (rest : List Char) :
    scanfLit c (c :: rest) = some rest := by simp [scanfLit]

theorem scanfLit_eq_some (c : Char) (l r : List Char) (h : scanfLit c l = some r) :
    l = c :: r := by
  cases l with
  | nil => exact absurd h (by simp [scanfLit])
  | cons d ds =>
    simp only [scanfLit] at h
    by_cases hd : d = c
    · subst hd
      rw [if_pos rfl] at h
      rw [Option.some_inj.mp h]
    · rw [if_neg hd] at h
      exact absurd h (by simp)

theorem alpha_of_append {P : Char → Prop} {a r l : List Char} (heq : l = a ++ r)
    (hl : ∀ c ∈ l, P c) : ∀ c ∈ r, P c :=
  fun c hc => hl c (heq ▸ List.mem_append_right a hc)

theorem alpha_of_cons {P : Char → Prop} {d : Char} {r l : List Char} (heq : l = d :: r)
    (hl : ∀ c ∈ l, P c) : ∀ c ∈ r, P c :=
  fun c hc => hl c (heq ▸ List.mem_cons_of_mem d hc)

/-- Forward characterization of the full IP format on digits-and-dots
input: a successful scan splits the input into four digit runs of one to
three characters separated by single dots. -/
theorem scanBridgeIpFmt_eq_some (s r : List Char)
    (halpha : ∀ c ∈ s, c.isDigit = true ∨ c = '.')
    (h : scanBridgeIpFmt s = some r) :
    ∃ a1 a2 a3 a4,
      s = a1 ++ '.' :: (a2 ++ '.' :: (a3 ++ '.' :: (a4 ++ r)))
      ∧ (1 ≤ a1.length ∧ a1.length ≤ 3 ∧ ∀ x ∈ a1, x.isDigit = true)
      ∧ (1 ≤ a2.length ∧ a2.length ≤ 3 ∧ ∀ x ∈ a2, x.isDigit = true)
      ∧ (1 ≤ a3.length ∧ a3.length ≤ 3 ∧ ∀ x ∈ a3, x.isDigit = true)
      ∧ (1 ≤ a4.length ∧ a4.length ≤ 3 ∧ ∀ x ∈ a4, x.isDigit = true) := by
  unfold scanBridgeIpFmt at h
  rcases Option.bind_eq_some.mp h with ⟨l6, h6, hs7⟩
  rcases Option.bind_eq_some.mp h6 with ⟨l5, h5, hs6⟩
  rcases Option.bind_eq_some.mp h5 with ⟨l4, h4, hs5⟩
  rcases Option.bind_eq_some.mp h4 with ⟨l3, h3, hs4⟩
  rcases Option.bind_eq_some.mp h3 with ⟨l2, h2, hs3⟩
  rcases Option.bind_eq_some.mp h2 with ⟨l1, h1, hs2⟩
  obtain ⟨a1, hsa1, hga1, hla1, hda1⟩ :=
    scanfUnsigned_eq_some _ 3 s l1
      (fun c hc => digit_or_dot_scan_ok c (halpha c hc)) h1
  have hal1 := alpha_of_append hsa1 halpha
  have hc1 : l1 = '.' :: l2 := scanfLit_eq_some '.' l1 l2 hs2
  have hal2 := alpha_of_cons hc1 hal1
  obtain ⟨a2, hsa2, hga2, hla2, hda2⟩ :=
    scanfUnsigned_eq_some _ 3 l2 l3
      (fun c hc => digit_or_dot_scan_ok c (hal2 c hc)) hs3
  have hal3 := alpha_of_append hsa2 hal2
  have hc2 : l3 = '.' :: l4 := scanfLit_eq_some '.' l3 l4 hs4
  have hal4 := alpha_of_cons hc2 hal3
  obtain ⟨a3, hsa3, hga3, hla3, hda3⟩ :=
    scanfUnsigned_eq_some _ 3 l4 l5
      (fun c hc => digit_or_dot_scan_ok c (hal4 c hc)) hs5
  have hal5 := alpha_of_append hsa3 hal4
  have hc3 : l5 = '.' :: l6 := scanfLit_eq_some '.' l5 l6 hs6
  have hal6 := alpha_of_cons hc3 hal5
  obtain ⟨a4, hsa4, hga4, hla4, hda4⟩ :=
    scanfUnsigned_eq_some _ 3 l6 r
      (fun c hc => digit_or_dot_scan_ok c (hal6 c hc)) hs7
  refine ⟨a1, a2, a3, a4, ?_, ⟨hga1, hla1, hda1⟩, ⟨hga2, hla2, hda2⟩,
    ⟨hga3, hla3, hda3⟩, ⟨hga4, hla4, hda4⟩⟩
  rw [hsa1, hc1, hsa2, hc2, hsa3, hc3, hsa4]

/-- Backward evaluation of the full IP format on four exactly-three-digit
runs separated by dots: the scan succeeds and consumes everything. -/
theorem scanBridgeIpFmt_quad (a1 a2 a3 a4 : List Char)
    (h1 : a1.length = 3) (h2 : a2.length = 3) (h3 : a3.length = 3)
    (h4 : a4.length = 3)
    (d1 : ∀ x ∈ a1, x.isDigit = true) (d2 : ∀ x ∈ a2, x.isDigit = true)
    (d3 : ∀ x ∈ a3, x.isDigit = true) (d4 : ∀ x ∈ a4, x.isDigit = true) :
    scanBridgeIpFmt (a1 ++ '.' :: (a2 ++ '.' :: (a3 ++ '.' :: a4))) = some [] := by
  have hw : ∀ c ∈ a1 ++ '.' :: (a2 ++ '.' :: (a3 ++ '.' :: a4)),
      c.isDigit = true ∨ c = '.' := by
    intro c hc
    rcases List.mem_append.mp hc with h | h
    · exact Or.inl (d1 c h)
    rcases List.mem_cons.mp h with h | h
    · exact Or.inr h
    rcases List.mem_append.mp h with h | h
    · exact Or.inl (d2 c h)
    rcases List.mem_cons.mp h with h | h
    · exact Or.inr h
    rcases List.mem_append.mp h with h | h
    · exact Or.inl (d3 c h)
    rcases List.mem_cons.mp h with h | h
    · exact Or.inr h
    · exact Or.inl (d4 c h)
  have hok : ∀ (l : List Char), (∀ c ∈ l, c.isDigit = true ∨ c = '.') →
      ∀ c ∈ l, isSpaceChar c = false ∧ ((c = '+' || c = '-') = false) :=
    fun _ hl c hc => digit_or_dot_scan_ok c (hl c hc)
  have hw2 := alpha_of_cons rfl (alpha_of_append rfl hw)
  have hw3 := alpha_of_cons rfl (alpha_of_append rfl hw2)
  have hw4 := alpha_of_cons rfl (alpha_of_append rfl hw3)
  unfold scanBridgeIpFmt
  rw [scanfUnsigned_exact Char.isDigit 3 a1 _ d1 h1 (by omega) (hok _ hw)]
  simp only [Option.some_bind]
  rw [scanfLit_cons]
  simp only [Option.some_bind]
  rw [scanfUnsigned_exact Char.isDigit 3 a2 _ d2 h2 (by omega) (hok _ hw2)]
  simp only [Option.some_bind]
  rw [scanfLit_cons]
  simp only [Option.some_bind]
  rw [scanfUnsigned_exact Char.isDigit 3 a3 _ d3 h3 (by omega) (hok _ hw3)]
  simp only [Option.some_bind]
  rw [scanfLit_cons]
  simp only [Option.some_bind]
  have hlast := scanfUnsigned_exact Char.isDigit 3 a4 [] d4 h4 (by omega)
    (by rw [List.append_nil]; exact hok _ hw4)
  rw [List.append_nil] at hlast
  rw [hlast]

/-- The bridge-address validator on digits-and-dots input accepts exactly
the 15-character strings of four three-digit octet fields separated by
dots. -/
theorem check_bridge_ip_iff (s : List Char)
    (hs : ∀ c ∈ s, c.isDigit = true ∨ c = '.') :
    check_bridge_ip s = .ok ↔
      ∃ a1 a2 a3 a4, s = a1 ++ '.' :: (a2 ++ '.' :: (a3 ++ '.' :: a4))
        ∧ isOctet3 a1 ∧ isOctet3 a2 ∧ isOctet3 a3 ∧ isOctet3 a4 := by
  constructor
  · intro h
    unfold check_bridge_ip at h
    by_cases hl : s.length = HUE_BRIDGE_IP_LENGTH
    swap
    · rw [if_pos hl] at h; exact absurd h (by simp)
    rw [if_neg (not_not_intro hl)] at h
    by_cases hscan : sscanfN scanBridgeIpFmt s = HUE_BRIDGE_IP_LENGTH
    swap
    · rw [if_pos hscan] at h; exact absurd h (by simp)
    rcases hfmt : scanBridgeIpFmt s with _ | rest
    · rw [sscanfN, hfmt] at hscan
      simp [HUE_BRIDGE_IP_LENGTH] at hscan
    · rw [sscanfN, hfmt] at hscan
      have hrest : rest = [] := by
        have h15 : s.length = 15 := hl
        have hs15 : s.length - rest.length = 15 := hscan
        have : rest.length = 0 := by omega
        exact List.length_eq_zero.mp this
      subst hrest
      obtain ⟨a1, a2, a3, a4, heq, ⟨g1, le1, dd1⟩, ⟨g2, le2, dd2⟩,
        ⟨g3, le3, dd3⟩, ⟨g4, le4, dd4⟩⟩ := scanBridgeIpFmt_eq_some s [] hs hfmt
      rw [List.append_nil] at heq
      have hlen : a1.length + a2.length + a3.length + a4.length = 12 := by
        have h15 : s.length = 15 := hl
        rw [heq] at h15
        simp only [List.length_append, List.length_cons] at h15
        omega
      exact ⟨a1, a2, a3, a4, heq, ⟨by omega, dd1⟩, ⟨by omega, dd2⟩,
        ⟨by omega, dd3⟩, ⟨by omega, dd4⟩⟩
  · rintro ⟨a1, a2, a3, a4, heq, ⟨le1, dd1⟩, ⟨le2, dd2⟩, ⟨le3, dd3⟩, ⟨le4, dd4⟩⟩
    have hfmt := scanBridgeIpFmt_quad a1 a2 a3 a4 le1 le2 le3 le4 dd1 dd2 dd3 dd4
    rw [← heq] at hfmt
    have hlen : s.length = HUE_BRIDGE_IP_LENGTH := by
      show s.length = 15
      rw [heq]
      simp only [List.length_append, List.length_cons, le1, le2, le3, le4]
    have hscan : sscanfN scanBridgeIpFmt s = HUE_BRIDGE_IP_LENGTH := by
      rw [sscanfN, hfmt]
      show s.length - List.length [] = HUE_BRIDGE_IP_LENGTH
      simp [hlen]
    unfold check_bridge_ip
    rw [if_neg (not_not_intro hlen), if_neg (not_not_intro hscan)]

/-- The bridge-identity validator on hexadecimal input accepts exactly the
16-character strings, whatever the letter case. -/
theorem check_bridge_id_iff (t : List Char)
    (ht : ∀ c ∈ t, isHexChar c = true) :
    check_bridge_id t = .ok ↔ t.length = HUE_BRIDGE_ID_LENGTH := by
  constructor
  · intro h
    unfold check_bridge_id at h
    by_cases hl : t.length = HUE_BRIDGE_ID_LENGTH
    · exact hl
    · rw [if_pos hl] at h; exact absurd h (by simp)
  · intro hl
    have hfmt : scanBridgeIdFmt t = some [] := by
      unfold scanBridgeIdFmt
      have hlast := scanfUnsigned_exact isHexChar 16 t [] ht hl (by omega)
        (by
          rw [List.append_nil]
          exact fun c hc => hex_scan_ok c (ht c hc))
      rw [List.append_nil] at hlast
      exact hlast
    have hscan : sscanfN scanBridgeIdFmt t = HUE_BRIDGE_ID_LENGTH := by
      rw [sscanfN, hfmt]
      show t.length - List.length [] = HUE_BRIDGE_ID_LENGTH
      simp [hl]
    unfold check_bridge_id
    rw [if_neg (not_not_intro hl), if_neg (not_not_intro hscan)]

/-! ## Claim theorems -/

/-- C1 (code_bug): per spec, after `report_disconnected` clears `Connected`
while a request occupies `current`, no transport call may occur until a
subsequent `report_connected`.  The code diverges: the worker's wake test
(line 299) proceeds when `Connected` *or* `Trigger` is set, and the guard of
`hue_https_request_loop` (line 216) — whose comment states the intent
"Return ESP_FAIL if Connected Bit is not set or Abort/Exit Bits are set" —
is the identically-false expression `((bits ^ BIT0) & BIT2) & BIT3`.
Failing input: `Connected|Trigger` set, a valid request in `current`,
`report_disconnected` applied; the next wake still reaches the transport
(one `esp_http_client_perform` call occurs, and the delivery concludes
within one observed loop iteration). -/
theorem C1_transport_call_despite_disconnected :
    (report_disconnected
        { bits := 3, current_request_handle := some ⟨some ['b'], some ['p']⟩,
          next_request_handle := none, buff_url := [], url_res_path_pos := 33,
          retry_attempts := 0 }).bits = 2 ∧
    2 &&& HUE_HTTPS_EVT_WIFI_CONNECTED_BIT = 0 ∧
    hue_https_request_task_step 2 = .deliver ∧
    hue_https_send_request 1
        { bits := 2, current_request_handle := some ⟨some ['b'], some ['p']⟩,
          next_request_handle := none, buff_url := [], url_res_path_pos := 33,
          retry_attempts := 0 }
        ⟨fun _ => 2, fun _ => true, fun _ => .performOk 200⟩
      = some
          ({ bits := 2, current_request_handle := none, next_request_handle := none,
             buff_url := ['p'], url_res_path_pos := 33, retry_attempts := 0 },
           [.transportCall, .mutexTake, .clearBits HUE_HTTPS_EVT_ABORT_BIT,
            .mutexGive]) ∧
    countTransport [Ev.transportCall, Ev.mutexTake,
        Ev.clearBits HUE_HTTPS_EVT_ABORT_BIT, Ev.mutexGive] = 1 := by
  refine ⟨rfl, by decide, by decide, by decide, by decide⟩

/-- C2 (code_bug): per spec, an attempt-loop iteration beginning with
`Abort` (or `Exit`) set must not start a new transport attempt and must
leave the loop early.  The code diverges through the same identically-false
guard (line 216): with `Connected|Abort` observed at every iteration and a
retry limit of 1, both iterations still start transport attempts (2 calls)
and the loop runs to its normal guard exit rather than bailing out early,
although the intended test (per the source comment) holds at iteration 0. -/
theorem C2_attempt_started_despite_abort :
    requestLoopGuardIntended
        (HUE_HTTPS_EVT_WIFI_CONNECTED_BIT ||| HUE_HTTPS_EVT_ABORT_BIT) = true ∧
    (∀ b, requestLoopGuard b = false) ∧
    countTransport (send_request_loop
        ⟨fun _ => HUE_HTTPS_EVT_WIFI_CONNECTED_BIT ||| HUE_HTTPS_EVT_ABORT_BIT,
         fun _ => true, fun _ => .performErr⟩ 3 1).1 = 2 ∧
    (send_request_loop
        ⟨fun _ => HUE_HTTPS_EVT_WIFI_CONNECTED_BIT ||| HUE_HTTPS_EVT_ABORT_BIT,
         fun _ => true, fun _ => .performErr⟩ 3 1).2 = some .notFinished :=
  ⟨by decide, requestLoopGuard_false, by decide, by decide⟩

/-- C3 (counterexample): at retry limit 255 — a representable value of the
`uint8_t` config field `retry_attempts` — the loop guard
`attempt_num <= retry_attempts` is always true for the `uint8_t` counter
and `attempt_num++` wraps 255 → 0, so with a transport that always fails
the loop never exits: after 260 observed iterations (more than
255 + 1 = 256) the loop is still running (`none`), 260 transport attempts
have already occurred, and the request is never dropped
(`hue_https_send_request` never reaches promotion) — refuting "exactly
r + 1 transport attempts ... after the last attempt the request is
dropped" at r = 255. -/
theorem C3_wrap_counterexample :
    (send_request_loop ⟨fun _ => 3, fun _ => true, fun _ => .performErr⟩ 260 255).1
      = (List.replicate 260 [Ev.transportCall, Ev.sleep1s]).flatten ∧
    countTransport
        (send_request_loop ⟨fun _ => 3, fun _ => true, fun _ => .performErr⟩ 260 255).1
      = 260 ∧
    (send_request_loop ⟨fun _ => 3, fun _ => true, fun _ => .performErr⟩ 260 255).2
      = none ∧
    hue_https_send_request 260
        { bits := 3, current_request_handle := some ⟨some ['b'], some ['p']⟩,
          next_request_handle := none, buff_url := [], url_res_path_pos := 33,
          retry_attempts := 255 }
        ⟨fun _ => 3, fun _ => true, fun _ => .performErr⟩ = none := by
  have hwrap := sendLoopAux_wrap_diverges
    ⟨fun _ => 3, fun _ => true, fun _ => .performErr⟩
    (fun _ => rfl) (fun _ => rfl) 260 0
  refine ⟨?_, ?_, ?_, ?_⟩
  · rw [send_request_loop, hwrap]
  · rw [send_request_loop, hwrap]
    exact countTransport_replicate_join 260
  · rw [send_request_loop, hwrap]
  · exact send_request_eq_none 260 _ _ ⟨some ['b'], some ['p']⟩ ['p'] ['b']
      rfl rfl rfl (by decide) (by decide)
      (by show (sendLoopAux _ 255 260 0).2 = none; rw [hwrap])

/-- C3 (amended): for retry limits in the `uint8_t` range that do not make
the attempt counter wrap (r ≤ 254), a delivery whose transport fails every
attempt performs exactly r + 1 transport attempts with one fixed 1-second
backoff between consecutive attempts (the trace is exactly r + 1 blocks of
transport-call-then-sleep followed by promotion events containing no
transport call), and afterwards the request leaves both slots; at r = 255
the counter wraps and the loop never exits (see the counterexample). -/
theorem C3_retry_bound (r : Nat) (env : SendEnv) (inst : HueInst) (req : Request)
    (hr : r ≤ 254)
    (hc : ∀ n, env.clientOkAt n = true)
    (hp : ∀ n, env.performAt n = .performErr)
    (hcur : inst.current_request_handle = some req)
    (hrp : req.resource_path.isSome = true)
    (hbody : req.request_body.isSome = true)
    (hpos1 : HUE_URL_BASE_MIN_LENGTH ≤ inst.url_res_path_pos)
    (hpos2 : inst.url_res_path_pos ≤ HUE_URL_BASE_MAX_LENGTH)
    (hretry : inst.retry_attempts = r)
    (hnext : inst.next_request_handle ≠ some req) :
    ∀ fuel, r + 2 ≤ fuel →
      ∃ post promoTr,
        hue_https_send_request fuel inst env
          = some (post,
              (List.replicate (r + 1) [Ev.transportCall, Ev.sleep1s]).flatten
                ++ promoTr)
        ∧ countTransport
            ((List.replicate (r + 1) [Ev.transportCall, Ev.sleep1s]).flatten
              ++ promoTr) = r + 1
        ∧ countTransport promoTr = 0
        ∧ post.current_request_handle ≠ some req
        ∧ post.next_request_handle ≠ some req := by
  obtain ⟨rp, hrp⟩ := Option.isSome_iff_exists.mp hrp
  obtain ⟨body, hbody⟩ := Option.isSome_iff_exists.mp hbody
  intro fuel hfuel
  have hloopfull : sendLoopAux env r fuel 0
      = ((List.replicate (r + 1) [Ev.transportCall, Ev.sleep1s]).flatten,
         some .notFinished) := by
    have h := sendLoopAux_always_fail env r hr hc hp fuel 0 (by omega) (by omega)
    simpa using h
  have hloop : (send_request_loop env fuel inst.retry_attempts).2
      = some .notFinished := by
    rw [send_request_loop, hretry, hloopfull]
  have heq := send_request_eq_some fuel inst env req rp body .notFinished
    hcur hrp hbody hpos1 hpos2 hloop
  set inst1 : HueInst :=
    { inst with buff_url := strncpyUrl inst.buff_url inst.url_res_path_pos rp }
    with hinst1
  have hlp1 : (send_request_loop env fuel inst.retry_attempts).1
      = (List.replicate (r + 1) [Ev.transportCall, Ev.sleep1s]).flatten := by
    rw [send_request_loop, hretry, hloopfull]
  have hnoTc : countTransport (promote inst1).2 = 0 := by
    rw [promote]
    cases h : inst1.next_request_handle.isSome <;> simp [h, countTransport]
  refine ⟨(promote inst1).1, (promote inst1).2, ?_, ?_, hnoTc, ?_, ?_⟩
  · rw [heq, hlp1]
  · rw [countTransport_append, countTransport_replicate_join, hnoTc]
  · show (promote inst1).1.current_request_handle ≠ some req
    simpa [promote] using hnext
  · show (promote inst1).1.next_request_handle ≠ some req
    simp [promote]

/-- Witness for C3 at r = 2 with observation fuel 4. -/
theorem C3_retry_bound_witness :
    ∃ post promoTr,
      hue_https_send_request 4
          { bits := 3, current_request_handle := some ⟨some ['b'], some ['p']⟩,
            next_request_handle := none, buff_url := [], url_res_path_pos := 33,
            retry_attempts := 2 }
          ⟨fun _ => 3, fun _ => true, fun _ => .performErr⟩
        = some (post,
            (List.replicate (2 + 1) [Ev.transportCall, Ev.sleep1s]).flatten
              ++ promoTr)
      ∧ countTransport
          ((List.replicate (2 + 1) [Ev.transportCall, Ev.sleep1s]).flatten
            ++ promoTr) = 2 + 1
      ∧ countTransport promoTr = 0
      ∧ post.current_request_handle ≠ some ⟨some ['b'], some ['p']⟩
      ∧ post.next_request_handle ≠ some ⟨some ['b'], some ['p']⟩ :=
  C3_retry_bound 2
    ⟨fun _ => 3, fun _ => true, fun _ => .performErr⟩
    { bits := 3, current_request_handle := some ⟨some ['b'], some ['p']⟩,
      next_request_handle := none, buff_url := [], url_res_path_pos := 33,
      retry_attempts := 2 }
    ⟨some ['b'], some ['p']⟩
    (by decide) (fun _ => rfl) (fun _ => rfl) rfl rfl rfl (by decide) (by decide)
    rfl (by decide) 4 (by decide)

/-- C4 (confirmed): a transport call that completes with an HTTP status
other than 200 is classified `ESP_ERR_INVALID_RESPONSE` (the spec's
`ResponseError`), which is terminal for the current request: for every
sufficient observation bound the attempt loop performs exactly one
transport call, sleeps no backoff, and the worker proceeds directly to
promotion; and the retry classification (`ESP_ERR_NOT_FINISHED`) arises
exactly from transport-level failures. -/
theorem C4_response_error_terminal (status : Nat) (env : SendEnv)
    (inst : HueInst) (req : Request)
    (hstat : status ≠ 200)
    (hp0 : env.performAt 0 = .performOk status)
    (hc0 : env.clientOkAt 0 = true)
    (hcur : inst.current_request_handle = some req)
    (hrp : req.resource_path.isSome = true)
    (hbody : req.request_body.isSome = true)
    (hpos1 : HUE_URL_BASE_MIN_LENGTH ≤ inst.url_res_path_pos)
    (hpos2 : inst.url_res_path_pos ≤ HUE_URL_BASE_MAX_LENGTH) :
    hue_https_request_loop (env.bitsAt 0) (env.clientOkAt 0) (env.performAt 0)
      = (.invalidResponse, [.transportCall]) ∧
    (∀ fuel, 1 ≤ fuel →
      ∃ post tr, hue_https_send_request fuel inst env = some (post, tr)
        ∧ countTransport tr = 1
        ∧ tr.countP (fun e => e = Ev.sleep1s) = 0
        ∧ post.current_request_handle = inst.next_request_handle
        ∧ post.next_request_handle = none) ∧
    (∀ b c p, ((hue_https_request_loop b c p).1 = .notFinished
      ↔ c = true ∧ p = .performErr)) := by
  obtain ⟨rp, hrp⟩ := Option.isSome_iff_exists.mp hrp
  obtain ⟨body, hbody⟩ := Option.isSome_iff_exists.mp hbody
  have hone : hue_https_request_loop (env.bitsAt 0) (env.clientOkAt 0) (env.performAt 0)
      = (.invalidResponse, [.transportCall]) := by
    rw [hp0, hc0]
    unfold hue_https_request_loop
    rw [requestLoopGuard_false]
    simp [hstat]
  refine ⟨hone, ?_, request_loop_notFinished_iff⟩
  intro fuel hfuel
  obtain ⟨f, rfl⟩ : ∃ f, fuel = f + 1 := ⟨fuel - 1, by omega⟩
  have hg : ¬ inst.retry_attempts % 256 < 0 % 256 := by simp
  have hloopaux : sendLoopAux env inst.retry_attempts (f + 1) 0
      = ([.transportCall], some .invalidResponse) := by
    simp only [sendLoopAux, if_neg hg, hone]
    simp
  have hloop : (send_request_loop env (f + 1) inst.retry_attempts).2
      = some .invalidResponse := by
    rw [send_request_loop, hloopaux]
  have heq := send_request_eq_some (f + 1) inst env req rp body .invalidResponse
    hcur hrp hbody hpos1 hpos2 hloop
  set inst1 : HueInst :=
    { inst with buff_url := strncpyUrl inst.buff_url inst.url_res_path_pos rp }
    with hinst1
  have hlp1 : (send_request_loop env (f + 1) inst.retry_attempts).1
      = [Ev.transportCall] := by
    rw [send_request_loop, hloopaux]
  refine ⟨(promote inst1).1, _, heq, ?_, ?_, ?_, ?_⟩
  · rw [hlp1]
    have hpz : countTransport (promote inst1).2 = 0 := by
      rw [promote]
      cases h : inst1.next_request_handle.isSome <;> simp [h, countTransport]
    simp only [countTransport_append, hpz]
    decide
  · rw [hlp1]
    simp only [List.countP_append]
    rw [promote]
    cases h : inst1.next_request_handle.isSome <;> simp [h]
  · show (promote inst1).1.current_request_handle = inst.next_request_handle
    simp [promote]
  · show (promote inst1).1.next_request_handle = none
    simp [promote]

/-- Witness for C4 at HTTP status 404 with observation fuel 1. -/
theorem C4_response_error_terminal_witness :
    ∃ post tr, hue_https_send_request 1
        { bits := 1, current_request_handle := some ⟨some ['b'], some ['p']⟩,
          next_request_handle := none, buff_url := [], url_res_path_pos := 33,
          retry_attempts := 5 }
        ⟨fun _ => 1, fun _ => true, fun _ => .performOk 404⟩ = some (post, tr)
      ∧ countTransport tr = 1
      ∧ tr.countP (fun e => e = Ev.sleep1s) = 0
      ∧ post.current_request_handle = none
      ∧ post.next_request_handle = none :=
  (C4_response_error_terminal 404
      ⟨fun _ => 1, fun _ => true, fun _ => .performOk 404⟩
      { bits := 1, current_request_handle := some ⟨some ['b'], some ['p']⟩,
        next_request_handle := none, buff_url := [], url_res_path_pos := 33,
        retry_attempts := 5 }
      ⟨some ['b'], some ['p']⟩
      (by decide) rfl rfl rfl rfl rfl (by decide) (by decide)).2.1 1 (by decide)

/-- C5 (counterexample): at a concrete state whose delivery succeeds with
HTTP 200 within one observed iteration, promotion runs, but the complete
event trace of `hue_https_send_request` is transport call, mutex take,
Abort clear, mutex give — it contains no free of the delivered request's
buffers, so the claim's "the request that was just delivered (or exhausted)
is destroyed, i.e. its buffers are freed" is false at this input. -/
theorem C5_no_free_counterexample :
    hue_https_send_request 1
        { bits := 1, current_request_handle := some ⟨some ['b'], some ['p']⟩,
          next_request_handle := none, buff_url := [], url_res_path_pos := 33,
          retry_attempts := 0 }
        ⟨fun _ => 1, fun _ => true, fun _ => .performOk 200⟩
      = some
          ({ bits := 1, current_request_handle := none, next_request_handle := none,
             buff_url := ['p'], url_res_path_pos := 33, retry_attempts := 0 },
           [.transportCall, .mutexTake, .clearBits HUE_HTTPS_EVT_ABORT_BIT,
            .mutexGive]) ∧
    (∀ r', Ev.freeRequest r' ∉
        [Ev.transportCall, Ev.mutexTake,
         Ev.clearBits HUE_HTTPS_EVT_ABORT_BIT, Ev.mutexGive]) := by
  refine ⟨by decide, ?_⟩
  intro r'
  simp

/-- C5 (amended): for every delivery that concludes (the retry loop exits
within the observed iterations), promotion runs under the mutex and clears
`current`, moves `next` into `current`, re-raises `Trigger` exactly when
`next` was occupied, and clears `Abort`; the delivered (or exhausted)
request however is not destroyed by the worker — no request-buffer free
occurs anywhere in the delivery path (destruction is left to the request
handle's owner). -/
theorem C5_promotion_after_delivery (inst : HueInst) (env : SendEnv) (req : Request)
    (hcur : inst.current_request_handle = some req)
    (hrp : req.resource_path.isSome = true)
    (hbody : req.request_body.isSome = true)
    (hpos1 : HUE_URL_BASE_MIN_LENGTH ≤ inst.url_res_path_pos)
    (hpos2 : inst.url_res_path_pos ≤ HUE_URL_BASE_MAX_LENGTH) :
    ∀ fuel post tr, hue_https_send_request fuel inst env = some (post, tr) →
      post.current_request_handle = inst.next_request_handle ∧
      post.next_request_handle = none ∧
      (post.bits).testBit 2 = false ∧
      (inst.next_request_handle.isSome = true → (post.bits).testBit 1 = true) ∧
      (inst.next_request_handle.isSome = false →
        post.bits = clearEvtBits inst.bits HUE_HTTPS_EVT_ABORT_BIT) ∧
      (∃ lp, tr = lp ++ [Ev.mutexTake]
          ++ (if inst.next_request_handle.isSome then
                [Ev.setBits HUE_HTTPS_EVT_TRIGGER_BIT] else [])
          ++ [Ev.clearBits HUE_HTTPS_EVT_ABORT_BIT, Ev.mutexGive]) ∧
      (∀ r', Ev.freeRequest r' ∉ tr) := by
  obtain ⟨rp, hrp⟩ := Option.isSome_iff_exists.mp hrp
  obtain ⟨body, hbody⟩ := Option.isSome_iff_exists.mp hbody
  intro fuel post tr hconc
  rcases hlp : (send_request_loop env fuel inst.retry_attempts).2 with _ | e
  · rw [send_request_eq_none fuel inst env req rp body hcur hrp hbody hpos1 hpos2 hlp]
      at hconc
    exact absurd hconc (by simp)
  · have heq := send_request_eq_some fuel inst env req rp body e
      hcur hrp hbody hpos1 hpos2 hlp
    rw [heq] at hconc
    set inst1 : HueInst :=
      { inst with buff_url := strncpyUrl inst.buff_url inst.url_res_path_pos rp }
      with hinst1
    have hpair := Option.some_inj.mp hconc
    have hpost : post = (promote inst1).1 := (congrArg Prod.fst hpair).symm
    have htr : tr = (send_request_loop env fuel inst.retry_attempts).1
        ++ (promote inst1).2 := (congrArg Prod.snd hpair).symm
    subst hpost
    subst htr
    have t42 : Nat.testBit HUE_HTTPS_EVT_ABORT_BIT 2 = true := by decide
    have t41 : Nat.testBit HUE_HTTPS_EVT_ABORT_BIT 1 = false := by decide
    have t21 : Nat.testBit HUE_HTTPS_EVT_TRIGGER_BIT 1 = true := by decide
    refine ⟨?_, ?_, ?_, ?_, ?_, ?_, ?_⟩
    · simp [promote]
    · simp [promote]
    · show ((promote inst1).1.bits).testBit 2 = false
      rw [promote]
      cases h : inst1.next_request_handle.isSome <;>
        simp [h, clearEvtBits_testBit, t42]
    · intro hsome
      show ((promote inst1).1.bits).testBit 1 = true
      rw [promote]
      have hs : inst1.next_request_handle.isSome = true := hsome
      simp [hs, clearEvtBits_testBit, t41, t21, Nat.testBit_or]
    · intro hnone
      show (promote inst1).1.bits = clearEvtBits inst.bits HUE_HTTPS_EVT_ABORT_BIT
      rw [promote]
      have hs : inst1.next_request_handle.isSome = false := hnone
      simp [hs]
    · refine ⟨(send_request_loop env fuel inst.retry_attempts).1, ?_⟩
      show _ ++ (promote inst1).2 = _
      rw [promote]
      cases h : inst1.next_request_handle.isSome <;> simp [h]
    · intro r' hmem
      rcases List.mem_append.mp hmem with h1 | h1
      · exact sendLoopAux_no_free env inst.retry_attempts r' fuel 0 h1
      · rw [promote] at h1
        cases h : inst1.next_request_handle.isSome <;> simp [h] at h1

/-- Witness for C5 with an occupied `next` slot (Trigger re-raised),
delivery concluding at observation fuel 1. -/
theorem C5_promotion_after_delivery_witness :
    hue_https_send_request 1
        { bits := 1, current_request_handle := some ⟨some ['b'], some ['p']⟩,
          next_request_handle := some ⟨some ['c'], some ['q']⟩, buff_url := [],
          url_res_path_pos := 33, retry_attempts := 0 }
        ⟨fun _ => 1, fun _ => true, fun _ => .performOk 200⟩
      = some
          ({ bits := 3, current_request_handle := some ⟨some ['c'], some ['q']⟩,
             next_request_handle := none, buff_url := ['p'],
             url_res_path_pos := 33, retry_attempts := 0 },
           [.transportCall, .mutexTake, .setBits HUE_HTTPS_EVT_TRIGGER_BIT,
            .clearBits HUE_HTTPS_EVT_ABORT_BIT, .mutexGive]) ∧
    ({ bits := 3, current_request_handle := some ⟨some ['c'], some ['q']⟩,
       next_request_handle := none, buff_url := ['p'],
       url_res_path_pos := 33, retry_attempts := 0 } : HueInst).current_request_handle
      = some ⟨some ['c'], some ['q']⟩ :=
  ⟨by decide,
   (C5_promotion_after_delivery
      { bits := 1, current_request_handle := some ⟨some ['b'], some ['p']⟩,
        next_request_handle := some ⟨some ['c'], some ['q']⟩, buff_url := [],
        url_res_path_pos := 33, retry_attempts := 0 }
      ⟨fun _ => 1, fun _ => true, fun _ => .performOk 200⟩
      ⟨some ['b'], some ['p']⟩
      rfl rfl rfl (by decide) (by decide) 1
      { bits := 3, current_request_handle := some ⟨some ['c'], some ['q']⟩,
        next_request_handle := none, buff_url := ['p'],
        url_res_path_pos := 33, retry_attempts := 0 }
      [.transportCall, .mutexTake, .setBits HUE_HTTPS_EVT_TRIGGER_BIT,
       .clearBits HUE_HTTPS_EVT_ABORT_BIT, .mutexGive]
      (by decide)).1⟩

/-- C6 (counterexample): the claim fails on the code in three independent
ways.  `"1.2.3.4"` is a dotted quad of at most 15 characters with octets in
0-255, yet `check_bridge_ip` rejects it (`strlen` must equal exactly 15);
`"999.999.999.999"` has octets far above 255, yet is accepted (no range
check beyond the three-digit field width); `"ABCDEF0123456789"` is uppercase
hexadecimal, yet `check_bridge_id` accepts it (`%x` matches either case, not
only lowercase). -/
theorem C6_validator_counterexample :
    check_bridge_ip ("1.2.3.4".toList) = .fail ∧
    check_bridge_ip ("999.999.999.999".toList) = .ok ∧
    check_bridge_id ("ABCDEF0123456789".toList) = .ok := by
  refine ⟨by decide, by decide, by decide⟩

/-- C6 (amended): restricted to inputs over the relevant character classes
(decimal digits and dots; hexadecimal characters), the bridge-address
validator accepts exactly the strings of exactly 15 characters formed of
four dot-separated three-digit octet fields — octet values above 255 are
accepted and shorter dotted quads rejected — and the bridge-identity
validator accepts exactly the strings of 16 hexadecimal characters of
either case.  (Outside these alphabets the scanf conversions additionally
admit leading whitespace and a sign.) -/
theorem C6_validators_characterized :
    (∀ s : List Char, (∀ c ∈ s, c.isDigit = true ∨ c = '.') →
      (check_bridge_ip s = .ok ↔
        ∃ a1 a2 a3 a4, s = a1 ++ '.' :: (a2 ++ '.' :: (a3 ++ '.' :: a4)) ∧
          isOctet3 a1 ∧ isOctet3 a2 ∧ isOctet3 a3 ∧ isOctet3 a4)) ∧
    (∀ t : List Char, (∀ c ∈ t, isHexChar c = true) →
      (check_bridge_id t = .ok ↔ t.length = HUE_BRIDGE_ID_LENGTH)) :=
  ⟨check_bridge_ip_iff, check_bridge_id_iff⟩

/-- Witness for C6 at "192.168.000.100" and "ABCDEF0123456789". -/
theorem C6_validators_characterized_witness :
    check_bridge_ip ("192.168.000.100".toList) = .ok ∧
    check_bridge_id ("ABCDEF0123456789".toList) = .ok := by
  constructor
  · exact (C6_validators_characterized.1 ("192.168.000.100".toList) (by decide)).mpr
      ⟨"192".toList, "168".toList, "000".toList, "100".toList, by decide,
        ⟨by decide, by decide⟩, ⟨by decide, by decide⟩,
        ⟨by decide, by decide⟩, ⟨by decide, by decide⟩⟩
  · exact (C6_validators_characterized.2 ("ABCDEF0123456789".toList) (by decide)).mpr
      (by decide)

/-- C7 (confirmed): `hue_https_create_instance` runs the three format checks
(bridge address, bridge identity, credential) before `alloc_hue_https_instance`;
when any of them fails, the call returns `ESP_ERR_INVALID_ARG` with an empty
effect trace (no allocation, no FreeRTOS object created) and the out-handle
still holds NULL. -/
theorem C7_validation_before_allocation (env : CreateEnv) (cfg : HueHttpsConfig)
    (ip bid key : List Char)
    (hip : cfg.bridge_ip = some ip)
    (hbid : cfg.bridge_id = some bid)
    (hkey : cfg.application_key = some key)
    (hfail : check_bridge_ip ip ≠ .ok ∨ check_bridge_id bid ≠ .ok
      ∨ check_app_key key ≠ .ok) :
    hue_https_create_instance env (some none) (some cfg)
      = (.invalidArg, some none, []) := by
  unfold hue_https_create_instance
  simp only [hip, hbid, hkey]
  rcases hfail with h | h | h
  · simp [h]
  · by_cases h1 : check_bridge_ip ip = .ok <;> simp [h1, h]
  · by_cases h1 : check_bridge_ip ip = .ok <;>
      by_cases h2 : check_bridge_id bid = .ok <;> simp [h1, h2, h]

/-- Witness for C7: the in-range dotted quad "1.2.3.4" is rejected by
`check_bridge_ip` (it is not 15 characters long), so creation fails fast. -/
theorem C7_validation_before_allocation_witness :
    hue_https_create_instance
      { mallocOk := true,
        garbage :=
          { task_handle := .addr 7, handle_evt := .addr 8,
            request_handle_mutex := .addr 9, buff_url := [], url_res_path_pos := 0,
            bridge_id := [], app_key := [], current_request_handle := .addr 5,
            next_request_handle := .addr 6, retry_attempts := 0 },
        evtCreateRes := .addr 10, mutexCreateRes := .addr 11,
        taskCreateRes := some (.addr 12) }
      (some none)
      (some { bridge_ip := some "1.2.3.4".toList,
              bridge_id := some "0123456789abcdef".toList,
              application_key := some "abcdefghijklmnopqrstuvwxyz0123456789-_AB".toList,
              task_id := some ['t'], retry_attempts := 4 })
      = (.invalidArg, some none, []) :=
  C7_validation_before_allocation
    { mallocOk := true,
      garbage :=
        { task_handle := .addr 7, handle_evt := .addr 8,
          request_handle_mutex := .addr 9, buff_url := [], url_res_path_pos := 0,
          bridge_id := [], app_key := [], current_request_handle := .addr 5,
          next_request_handle := .addr 6, retry_attempts := 0 },
      evtCreateRes := .addr 10, mutexCreateRes := .addr 11,
      taskCreateRes := some (.addr 12) }
    { bridge_ip := some "1.2.3.4".toList,
      bridge_id := some "0123456789abcdef".toList,
      application_key := some "abcdefghijklmnopqrstuvwxyz0123456789-_AB".toList,
      task_id := some ['t'], retry_attempts := 4 }
    "1.2.3.4".toList "0123456789abcdef".toList
    "abcdefghijklmnopqrstuvwxyz0123456789-_AB".toList
    rfl rfl rfl (Or.inl (by decide))

/-- C8 (code_bug): per spec, when event-group or mutex creation fails
partway through `alloc_hue_https_instance`, the unwind must release exactly
the resources already created.  The code sets the `task_handle`,
`current/next` and (until their creation) `handle_evt`/`request_handle_mutex`
fields only *after* both creations succeed, yet `free_hue_https_instance`
tests those fields — which still hold indeterminate malloc contents — and
deletes whatever they point at.  Failing input: malloc garbage
`task_handle = addr 7`, `request_handle_mutex = addr 9`; with
`xEventGroupCreate` failing, the unwind issues `vTaskDelete(addr 7)` and
`vSemaphoreDelete(addr 9)` although no task or mutex was ever created; with
the mutex creation failing instead, it issues `vTaskDelete(addr 7)`.  (The
out-handle is indeed left NULL, the one part of the claim that holds.) -/
theorem C8_unwind_acts_on_uncreated_resources :
    alloc_hue_https_instance
        { mallocOk := true,
          garbage :=
            { task_handle := .addr 7, handle_evt := .addr 8,
              request_handle_mutex := .addr 9, buff_url := [], url_res_path_pos := 0,
              bridge_id := [], app_key := [], current_request_handle := .addr 5,
              next_request_handle := .addr 6, retry_attempts := 0 },
          evtCreateRes := .null, mutexCreateRes := .addr 20,
          taskCreateRes := some (.addr 30) }
        "192.168.000.100".toList "0123456789abcdef".toList
        "abcdefghijklmnopqrstuvwxyz0123456789-_AB".toList 4
      = (.noMem, none,
         [.mallocInst, .xEventGroupCreate .null, .vTaskDelete (.addr 7),
          .vSemaphoreDelete (.addr 9), .freeInst]) ∧
    alloc_hue_https_instance
        { mallocOk := true,
          garbage :=
            { task_handle := .addr 7, handle_evt := .addr 8,
              request_handle_mutex := .addr 9, buff_url := [], url_res_path_pos := 0,
              bridge_id := [], app_key := [], current_request_handle := .addr 5,
              next_request_handle := .addr 6, retry_attempts := 0 },
          evtCreateRes := .addr 10, mutexCreateRes := .null,
          taskCreateRes := some (.addr 30) }
        "192.168.000.100".toList "0123456789abcdef".toList
        "abcdefghijklmnopqrstuvwxyz0123456789-_AB".toList 4
      = (.noMem, none,
         [.mallocInst, .xEventGroupCreate (.addr 10), .xSemaphoreCreateMutex .null,
          .vTaskDelete (.addr 7), .vEventGroupDelete (.addr 10), .freeInst]) := by
  constructor <;> decide

/-- C9 (code_bug): `hue_https_destroy_instance` is the unfinished stub
`{return ESP_ERR_NOT_FINISHED;}` (marked `TODO: Instance destroy`), although
its own header documentation promises that it "Destroys Hue HTTPS instance
and frees all associated resources".  For every handle it returns
`ESP_ERR_NOT_FINISHED`, signals no `Exit`, waits for nothing, and releases
neither the resident requests nor the mutex nor the event group (empty
trace, handle unchanged). -/
theorem C9_destroy_instance_is_a_stub (p : Option (Option InstMem)) :
    hue_https_destroy_instance p = (.notFinished, p, []) := rfl

/-- C10 (confirmed): both `hue_https_create_instance` and
`hue_https_create_light_request`, when their out-handle already holds a
non-NULL instance, return `ESP_ERR_INVALID_ARG` immediately, perform no
effect, and leave the handle (and hence the existing instance) unchanged. -/
theorem C10_no_overwrite_of_live_handle (env : CreateEnv) (renv : ReqCreateEnv)
    (inst : InstMem) (req : ReqMem)
    (pc : Option HueHttpsConfig) (pl : Option LightData) :
    hue_https_create_instance env (some (some inst)) pc
      = (.invalidArg, some (some inst), []) ∧
    hue_https_create_light_request renv (some (some req)) pl
      = (.invalidArg, some (some req), []) :=
  ⟨rfl, rfl⟩

end HueHttps
